import Mathlib

/-!
Verification of the execution-layer oracle of the Rocket Pool rescue proxy,
a shallow embedding of `executionlayer/execution-layer.go`.

Addresses and 32-byte words are modelled as natural numbers, the two
`sync.Map` indices as association lists where a fresh binding shadows any
older one (matching `Store`/`Load` semantics), `big.Int` block numbers as
naturals, and every fallible adapter call (ethclient / rocketpool-go RPC)
as an `Except Unit` value supplied by an `Env` record.  Go code that
mutates a record through a shared pointer is modelled by writing the
updated record back into the index under the same key, which gives the
same `Load` observations.
-/

namespace RescueProxy

/-- Models `common.BytesToAddress`, which keeps the low 20 bytes of a
32-byte word; the source applies it to `event.Topics[1]` and
`event.Topics[2]`. -/
def bytesToAddress (w : Nat) : Nat := w % 2 ^ 160

/-- First-match lookup in an association list; models `sync.Map.Load`. -/
def lookupA {β : Type} : List (Nat × β) → Nat → Option β
  | [], _ => none
  | (k, v) :: rest, k0 => if k = k0 then some v else lookupA rest k0

/-- Models `sync.Map.Store`: the new binding shadows any earlier binding of
the same key. -/
def storeA {β : Type} (m : List (Nat × β)) (k : Nat) (v : β) : List (Nat × β) :=
  (k, v) :: m

/-- Embeds the `nodeInfo` struct (execution-layer.go:26-29). -/
structure nodeInfo where
  inSmoothingPool : Bool
  feeDistributor : Nat
deriving DecidableEq

/-- The state-bearing fields of the `ExecutionLayer` struct
(execution-layer.go:34-96): the three event-topic hashes, the addresses of
the three contracts, the two indices and `highestBlock`.  Fields that only
exist for plumbing (logger, channels, wait group, URLs, shutdown callback)
carry no index state and are not modelled. -/
structure ExecutionLayer where
  nodeRegisteredTopic : Nat
  smoothingPoolStatusChangedTopic : Nat
  minipoolLaunchedTopic : Nat
  rocketNodeManagerAddress : Nat
  rocketMinipoolManagerAddress : Nat
  smoothingPoolAddress : Nat
  minipoolIndex : List (Nat × Nat)
  nodeIndex : List (Nat × nodeInfo)
  highestBlock : Nat
deriving DecidableEq

/-- Embeds `types.Log` as used by the source: the emitting contract
address, the first three topics, the data word (the source decodes it with
`big.NewInt(0).SetBytes`), and the block number. -/
structure Log where
  address : Nat
  topic0 : Nat
  topic1 : Nat
  topic2 : Nat
  data : Nat
  blockNumber : Nat
deriving DecidableEq

/-- The adapter surface the source calls into (ethclient and rocketpool-go);
each entry models one fallible RPC.  `filterLogs` receives the address
list, the topic list and the inclusive block range exactly as the source
builds its `ethereum.FilterQuery`. -/
structure Env where
  dial : Except Unit Unit
  newRocketPool : Except Unit Unit
  headerByNumber : Except Unit Nat
  getContract : String → Except Unit Nat
  getNodes : Except Unit (List Nat)
  getSmoothingPoolRegistrationState : Nat → Except Unit Bool
  getDistributorAddress : Nat → Except Unit Nat
  getNodeMinipools : Nat → Except Unit (List Nat)
  getMinipoolDetails : Nat → Except Unit Nat
  filterLogs : List Nat → List Nat → Nat → Nat → Except Unit (List Log)
  subscribeFilterLogs : Except Unit Unit
  subscribeNewHead : Except Unit Unit

/-- Embeds `handleNodeEvent` (execution-layer.go:122-164).

On `NodeRegistered` the source unconditionally stores a fresh zero-valued
`nodeInfo`.  On `NodeSmoothingPoolStateChanged` with the node present it
mutates the stored record through the shared pointer (modelled by storing
the updated record back); with the node absent it allocates a local record
and fills its fee distributor (zero-valued when the adapter call fails),
but the source contains no `Store` for that record, so the index is left
unchanged on that path.  Any other topic only logs a warning. -/
def handleNodeEvent (env : Env) (e : ExecutionLayer) (event : Log) : ExecutionLayer :=
  if event.topic0 = e.nodeRegisteredTopic then
    let addr := bytesToAddress event.topic1
    { e with nodeIndex := storeA e.nodeIndex addr { inSmoothingPool := false, feeDistributor := 0 } }
  else if event.topic0 = e.smoothingPoolStatusChangedTopic then
    let nodeAddr := bytesToAddress event.topic1
    let status := event.data
    match lookupA e.nodeIndex nodeAddr with
    | some n =>
      { e with nodeIndex := storeA e.nodeIndex nodeAddr { n with inSmoothingPool := status == 1 } }
    | none =>
      let fd := match env.getDistributorAddress nodeAddr with
        | .ok d => d
        | .error _ => 0
      let lost : nodeInfo := { inSmoothingPool := status == 1, feeDistributor := fd }
      let _ := lost
      e
  else
    e

/-- Embeds `handleMinipoolEvent` (execution-layer.go:166-188): on a
`MinipoolCreated` event, fetch the minipool details; on failure log and
return without touching the index, otherwise store pubkey → node address. -/
def handleMinipoolEvent (env : Env) (e : ExecutionLayer) (event : Log) : ExecutionLayer :=
  if event.topic0 ≠ e.minipoolLaunchedTopic then
    e
  else
    let nodeAddr := bytesToAddress event.topic2
    let minipoolAddr := bytesToAddress event.topic1
    match env.getMinipoolDetails minipoolAddr with
    | .error _ => e
    | .ok pubkey => { e with minipoolIndex := storeA e.minipoolIndex pubkey nodeAddr }

/-- Embeds `handleEvent` (execution-layer.go:190-208): dispatch on the
emitting contract, then always set `highestBlock` to the event block
number (the source does this unconditionally at the `out:` label). -/
def handleEvent (env : Env) (e : ExecutionLayer) (event : Log) : ExecutionLayer :=
  let e1 :=
    if event.address = e.rocketNodeManagerAddress then
      handleNodeEvent env e event
    else if event.address = e.rocketMinipoolManagerAddress then
      handleMinipoolEvent env e event
    else
      e
  { e1 with highestBlock := event.blockNumber }

/-- Embeds the new-header arm of the ingestion select loop
(execution-layer.go:379-398): a header never rewinds `highestBlock`. -/
def handleNewHeader (e : ExecutionLayer) (headerNumber : Nat) : ExecutionLayer :=
  if headerNumber ≤ e.highestBlock then e
  else { e with highestBlock := headerNumber }

/-- Embeds `backfillEvents` (execution-layer.go:217-265): start one block
after `highestBlock`, fetch the current head, return success without any
log query when the head is below the start, otherwise fetch the logs for
the two contracts and three topics over the inclusive range, replay them
through `handleEvent`, and force `highestBlock` to the head. -/
def backfillEvents (env : Env) (e : ExecutionLayer) : Except Unit ExecutionLayer :=
  let start := e.highestBlock + 1
  match env.headerByNumber with
  | .error _ => .error ()
  | .ok stop =>
    if stop < start then
      .ok e
    else
      match env.filterLogs
          [e.rocketMinipoolManagerAddress, e.rocketNodeManagerAddress]
          [e.nodeRegisteredTopic, e.smoothingPoolStatusChangedTopic, e.minipoolLaunchedTopic]
          start stop with
      | .error _ => .error ()
      | .ok missedEvents =>
        let e1 := missedEvents.foldl (handleEvent env) e
        .ok { e1 with highestBlock := stop }

/-- The block delta `backfillEvents` reports in its debug log
(execution-layer.go:256-259): `stop - start`, plus one because the range
is inclusive. -/
def backfillDelta (start stop : Nat) : Nat := (stop - start) + 1

/-- Embeds `feeRecipientForNode`, the tail of `ValidatorFeeRecipient`
(execution-layer.go:534-548): resolve the owning node in the node index;
absence is the logged referential-integrity error returning
`(none, false)`; otherwise return the smoothing-pool address or the node
fee distributor. -/
def feeRecipientForNode (e : ExecutionLayer) (nodeAddr : Nat) : Option Nat × Bool :=
  match lookupA e.nodeIndex nodeAddr with
  | none => (none, false)
  | some info =>
    if info.inSmoothingPool then (some e.smoothingPoolAddress, false)
    else (some info.feeDistributor, false)

/-- Embeds `ValidatorFeeRecipient` (execution-layer.go:520-549). -/
def ValidatorFeeRecipient (e : ExecutionLayer) (pubkey : Nat) (queryNodeAddr : Option Nat) :
    Option Nat × Bool :=
  match lookupA e.minipoolIndex pubkey with
  | none => (none, false)
  | some nodeAddr =>
    match queryNodeAddr with
    | some q =>
      if q ≠ nodeAddr then (none, true)
      else feeRecipientForNode e nodeAddr
    | none => feeRecipientForNode e nodeAddr

/-- Embeds `reconnectRetries` (execution-layer.go:24). -/
def reconnectRetries : Nat := 10

/-- Outcome of one `handleSubscriptionError` invocation: a successful
reconnect carrying the backfilled state, the panic after a failed
post-reconnect back-fill (execution-layer.go:297), or the panic reached
after the loop exits without a working pair of subscriptions
(execution-layer.go:310). -/
inductive ReconnectOutcome where
  | reconnected (st : ExecutionLayer)
  | panicBackfill
  | panicNoConnection
deriving DecidableEq

/-- Observable behaviour of the retry loop: its outcome, how many
`SubscribeFilterLogs` attempts were made, and the seconds slept between
attempts, in order. -/
structure ReconnectResult where
  outcome : ReconnectOutcome
  attempts : Nat
  sleeps : List Nat
deriving DecidableEq

/-- Embeds the retry loop of `handleSubscriptionError`
(execution-layer.go:275-310), started at loop index `i` with `remaining`
iterations left.  A failed `SubscribeFilterLogs` sleeps
`time.Duration(i) * 5s`, that is `5 * i` seconds, and continues; a failed
`SubscribeNewHead` breaks out of the loop (the source comment reads
"no retries"), which falls through to the final panic; a failed back-fill
panics; otherwise the reconnect succeeds.  `envAt i` is the adapter as
seen by attempt `i`, so the head and the subscription outcomes may differ
between attempts. -/
def reconnectFrom (envAt : Nat → Env) (e : ExecutionLayer) : Nat → Nat → ReconnectResult
  | _, 0 => { outcome := .panicNoConnection, attempts := 0, sleeps := [] }
  | i, r + 1 =>
    match (envAt i).subscribeFilterLogs with
    | .ok _ =>
      match (envAt i).subscribeNewHead with
      | .error _ => { outcome := .panicNoConnection, attempts := 1, sleeps := [] }
      | .ok _ =>
        match backfillEvents (envAt i) e with
        | .error _ => { outcome := .panicBackfill, attempts := 1, sleeps := [] }
        | .ok e1 => { outcome := .reconnected e1, attempts := 1, sleeps := [] }
    | .error _ =>
      let rest := reconnectFrom envAt e (i + 1) r
      { outcome := rest.outcome, attempts := rest.attempts + 1, sleeps := (5 * i) :: rest.sleeps }

/-- Embeds `handleSubscriptionError` (execution-layer.go:268-311): return
immediately during shutdown, otherwise run the retry loop from attempt 0
with `reconnectRetries` iterations. -/
def handleSubscriptionError (envAt : Nat → Env) (e : ExecutionLayer) (shutdown : Bool) :
    Option ReconnectResult :=
  if shutdown then none
  else some (reconnectFrom envAt e 0 reconnectRetries)

/-- Stands for `crypto.Keccak256Hash("NodeRegistered(address,uint256)")`
(execution-layer.go:317).  The model does not compute keccak-256; only the
distinctness of the three hashes matters to the properties proved. -/
def nodeRegisteredTopicHash : Nat := 1

/-- Stands for
`crypto.Keccak256Hash("NodeSmoothingPoolStateChanged(address,bool)")`
(execution-layer.go:318). -/
def smoothingPoolStatusChangedTopicHash : Nat := 2

/-- Stands for
`crypto.Keccak256Hash("MinipoolCreated(address,address,uint256)")`
(execution-layer.go:319). -/
def minipoolLaunchedTopicHash : Nat := 3

/-- Embeds `ecEventsConnect` (execution-layer.go:314-413): set the three
topic hashes and `highestBlock` to the pinned block, subscribe to filtered
logs, subscribe to new headers, then back-fill.  The boolean reports
whether every step succeeded; on failure the state already mutated is kept,
matching the in-place mutation of the Go receiver.  The goroutine that
pumps the channels afterwards is concurrency and is not part of this
function value. -/
def ecEventsConnect (env : Env) (e : ExecutionLayer) (pinBlock : Nat) :
    ExecutionLayer × Bool :=
  let e := { e with
    nodeRegisteredTopic := nodeRegisteredTopicHash
    smoothingPoolStatusChangedTopic := smoothingPoolStatusChangedTopicHash
    minipoolLaunchedTopic := minipoolLaunchedTopicHash
    highestBlock := pinBlock }
  match env.subscribeFilterLogs with
  | .error _ => (e, false)
  | .ok _ =>
    match env.subscribeNewHead with
    | .error _ => (e, false)
    | .ok _ =>
      match backfillEvents env e with
      | .error _ => (e, false)
      | .ok e1 => (e1, true)

/-- The `ExecutionLayer` as built by `NewExecutionLayer`
(execution-layer.go:99-108): empty indices, zero-valued everything else. -/
def emptyEL : ExecutionLayer :=
  { nodeRegisteredTopic := 0
    smoothingPoolStatusChangedTopic := 0
    minipoolLaunchedTopic := 0
    rocketNodeManagerAddress := 0
    rocketMinipoolManagerAddress := 0
    smoothingPoolAddress := 0
    minipoolIndex := []
    nodeIndex := []
    highestBlock := 0 }

/-- Embeds the per-node body of the snapshot loop in `Init`
(execution-layer.go:460-488): read the smoothing-pool state and the fee
distributor, store the `nodeInfo`, then store every minipool pubkey of the
node; any adapter failure aborts. -/
def loadNode (env : Env) (e : ExecutionLayer) (addr : Nat) : Except Unit ExecutionLayer := do
  let sp ← env.getSmoothingPoolRegistrationState addr
  let fd ← env.getDistributorAddress addr
  let e := { e with nodeIndex := storeA e.nodeIndex addr { inSmoothingPool := sp, feeDistributor := fd } }
  let pubkeys ← env.getNodeMinipools addr
  return { e with minipoolIndex := pubkeys.foldl (fun m pk => storeA m pk addr) e.minipoolIndex }

/-- The snapshot loop of `Init` over the node list. -/
def loadNodes (env : Env) : ExecutionLayer → List Nat → Except Unit ExecutionLayer
  | e, [] => .ok e
  | e, addr :: rest => do
    let e1 ← loadNode env e addr
    loadNodes env e1 rest

/-- Embeds `Init` (execution-layer.go:416-495): dial, build the rocketpool
client, pin the current head, resolve the three contracts, snapshot every
node and its minipools — each failure propagated — and finally call
`ecEventsConnect`, whose returned error the source discards
(execution-layer.go:492), so `Init` returns success regardless of it. -/
def Init (env : Env) : Except Unit ExecutionLayer := do
  let _ ← env.dial
  let _ ← env.newRocketPool
  let pinBlock ← env.headerByNumber
  let nm ← env.getContract "rocketNodeManager"
  let mm ← env.getContract "rocketMinipoolManager"
  let sp ← env.getContract "rocketSmoothingPool"
  let nodes ← env.getNodes
  let e ← loadNodes env
    { emptyEL with
      rocketNodeManagerAddress := nm
      rocketMinipoolManagerAddress := mm
      smoothingPoolAddress := sp } nodes
  return (ecEventsConnect env e pinBlock).fst

/-! ### Concrete fixtures used by witnesses and counterexamples -/

/-- An adapter in which every call succeeds: head at block 120, no logs,
fee distributor of node `a` at `a + 1000`, minipool pubkey of minipool `a`
at `a + 5000`, contracts at 100 / 200 / 300. -/
def envOk : Env :=
  { dial := .ok ()
    newRocketPool := .ok ()
    headerByNumber := .ok 120
    getContract := fun name =>
      if name = "rocketNodeManager" then .ok 100
      else if name = "rocketMinipoolManager" then .ok 200
      else .ok 300
    getNodes := .ok []
    getSmoothingPoolRegistrationState := fun _ => .ok false
    getDistributorAddress := fun a => .ok (a + 1000)
    getNodeMinipools := fun _ => .ok []
    getMinipoolDetails := fun a => .ok (a + 5000)
    filterLogs := fun _ _ _ _ => .ok []
    subscribeFilterLogs := .ok ()
    subscribeNewHead := .ok () }

/-- A running oracle state: topics 1/2/3, node manager at 100, minipool
manager at 200, smoothing pool at 300, empty indices, highest block 110. -/
def elExample : ExecutionLayer :=
  { nodeRegisteredTopic := nodeRegisteredTopicHash
    smoothingPoolStatusChangedTopic := smoothingPoolStatusChangedTopicHash
    minipoolLaunchedTopic := minipoolLaunchedTopicHash
    rocketNodeManagerAddress := 100
    rocketMinipoolManagerAddress := 200
    smoothingPoolAddress := 300
    minipoolIndex := []
    nodeIndex := []
    highestBlock := 110 }

/-! ### Helper lemmas -/

theorem lookupA_store_self {β : Type} (m : List (Nat × β)) (k : Nat) (v : β) :
    lookupA (storeA m k v) k = some v := by
  simp [storeA, lookupA]

theorem feeRecipientForNode_snd (e : ExecutionLayer) (n : Nat) :
    (feeRecipientForNode e n).2 = false := by
  unfold feeRecipientForNode
  cases h : lookupA e.nodeIndex n with
  | none => rfl
  | some info =>
    by_cases hsp : info.inSmoothingPool <;> simp [hsp]

theorem backfillEvents_noop (env : Env) (e : ExecutionLayer) (stop : Nat)
    (h1 : env.headerByNumber = .ok stop) (h2 : stop < e.highestBlock + 1) :
    backfillEvents env e = .ok e := by
  simp only [backfillEvents, h1]
  rw [if_pos h2]

theorem backfillEvents_run (env : Env) (e : ExecutionLayer) (stop : Nat) (logs : List Log)
    (h1 : env.headerByNumber = .ok stop) (h2 : e.highestBlock + 1 ≤ stop)
    (h3 : env.filterLogs
        [e.rocketMinipoolManagerAddress, e.rocketNodeManagerAddress]
        [e.nodeRegisteredTopic, e.smoothingPoolStatusChangedTopic, e.minipoolLaunchedTopic]
        (e.highestBlock + 1) stop = .ok logs) :
    backfillEvents env e = .ok { logs.foldl (handleEvent env) e with highestBlock := stop } := by
  simp only [backfillEvents, h1]
  rw [if_neg (by omega), h3]

theorem backfillEvents_mono (env : Env) (e e1 : ExecutionLayer)
    (hbf : backfillEvents env e = .ok e1) : e.highestBlock ≤ e1.highestBlock := by
  simp only [backfillEvents] at hbf
  split at hbf
  · exact Except.noConfusion hbf
  · split at hbf
    · injection hbf with h
      subst h
      exact Nat.le_refl _
    · split at hbf
      · exact Except.noConfusion hbf
      · injection hbf with h
        subst h
        dsimp only
        omega

/-! ### Claim C1 -/

/-- Claim C1: `ValidatorFeeRecipient` returns `(none, false)` for an
unknown pubkey; `(none, true)` when the pubkey is a known minipool and the
claimed node differs from the owner; `(none, false)` when the owner is
missing from the node index; the smoothing-pool address when the owner is
in the smoothing pool; the owner fee distributor otherwise; and the
mismatch flag is true iff the pubkey is a known minipool whose owner is
not the claimed node. -/
theorem C1_validator_fee_recipient (e : ExecutionLayer) (p : Nat) (q : Option Nat) :
    (lookupA e.minipoolIndex p = none → ValidatorFeeRecipient e p q = (none, false))
  ∧ (∀ n qa, lookupA e.minipoolIndex p = some n → q = some qa → qa ≠ n →
      ValidatorFeeRecipient e p q = (none, true))
  ∧ (∀ n, lookupA e.minipoolIndex p = some n → (q = some n ∨ q = none) →
      lookupA e.nodeIndex n = none → ValidatorFeeRecipient e p q = (none, false))
  ∧ (∀ n info, lookupA e.minipoolIndex p = some n → (q = some n ∨ q = none) →
      lookupA e.nodeIndex n = some info → info.inSmoothingPool = true →
      ValidatorFeeRecipient e p q = (some e.smoothingPoolAddress, false))
  ∧ (∀ n info, lookupA e.minipoolIndex p = some n → (q = some n ∨ q = none) →
      lookupA e.nodeIndex n = some info → info.inSmoothingPool = false →
      ValidatorFeeRecipient e p q = (some info.feeDistributor, false))
  ∧ ((ValidatorFeeRecipient e p q).2 = true ↔
      ∃ n qa, lookupA e.minipoolIndex p = some n ∧ q = some qa ∧ qa ≠ n) := by
  refine ⟨?_, ?_, ?_, ?_, ?_, ?_⟩
  · intro h
    simp [ValidatorFeeRecipient, h]
  · intro n qa h hq hne
    subst hq
    simp [ValidatorFeeRecipient, h, hne]
  · intro n h hq hn
    rcases hq with rfl | rfl <;>
      simp [ValidatorFeeRecipient, h, feeRecipientForNode, hn]
  · intro n info h hq hn hsp
    rcases hq with rfl | rfl <;>
      simp [ValidatorFeeRecipient, h, feeRecipientForNode, hn, hsp]
  · intro n info h hq hn hsp
    rcases hq with rfl | rfl <;>
      simp [ValidatorFeeRecipient, h, feeRecipientForNode, hn, hsp]
  · cases hmp : lookupA e.minipoolIndex p with
    | none => simp [ValidatorFeeRecipient, hmp]
    | some n0 =>
      cases q with
      | none => simp [ValidatorFeeRecipient, hmp, feeRecipientForNode_snd]
      | some qa =>
        by_cases hq : qa = n0
        · subst hq
          simp [ValidatorFeeRecipient, hmp, feeRecipientForNode_snd]
        · simp [ValidatorFeeRecipient, hmp, hq]

/-- State for the C1 witness: pubkey 7 owned by node 40 (in the smoothing
pool), pubkey 8 owned by node 41 (solo, distributor 88), pubkey 9 owned by
node 42 which is missing from the node index. -/
def elC1 : ExecutionLayer :=
  { elExample with
    minipoolIndex := [(7, 40), (8, 41), (9, 42)]
    nodeIndex := [(40, { inSmoothingPool := true, feeDistributor := 77 }),
                  (41, { inSmoothingPool := false, feeDistributor := 88 })] }

theorem C1_witness :
    ValidatorFeeRecipient elC1 6 none = (none, false)
  ∧ ValidatorFeeRecipient elC1 7 (some 41) = (none, true)
  ∧ ValidatorFeeRecipient elC1 9 (some 42) = (none, false)
  ∧ ValidatorFeeRecipient elC1 7 none = (some 300, false)
  ∧ ValidatorFeeRecipient elC1 8 (some 41) = (some 88, false)
  ∧ ((ValidatorFeeRecipient elC1 7 (some 41)).2 = true ↔
      ∃ n qa, lookupA elC1.minipoolIndex 7 = some n ∧ (some 41 : Option Nat) = some qa ∧ qa ≠ n) :=
  ⟨(C1_validator_fee_recipient elC1 6 none).1 (by decide),
   (C1_validator_fee_recipient elC1 7 (some 41)).2.1 40 41 (by decide) rfl (by decide),
   (C1_validator_fee_recipient elC1 9 (some 42)).2.2.1 42 (by decide) (Or.inl rfl) (by decide),
   (C1_validator_fee_recipient elC1 7 none).2.2.2.1 40
     { inSmoothingPool := true, feeDistributor := 77 } (by decide) (Or.inr rfl) (by decide) rfl,
   (C1_validator_fee_recipient elC1 8 (some 41)).2.2.2.2.1 41
     { inSmoothingPool := false, feeDistributor := 88 } (by decide) (Or.inl rfl) (by decide) rfl,
   (C1_validator_fee_recipient elC1 7 (some 41)).2.2.2.2.2⟩

/-! ### Claim C2 -/

/-- A `NodeSmoothingPoolStateChanged` log for node address 55 (absent from
every fixture node index), decoding to in-pool, at block 111, emitted by
the node manager at 100. -/
def logC2 : Log :=
  { address := 100, topic0 := smoothingPoolStatusChangedTopicHash, topic1 := 55, topic2 := 0,
    data := 1, blockNumber := 111 }

/-- Claim C2 fails on the source: handling a state-change event for a node
absent from the index allocates the record and computes its fee
distributor (the adapter call here succeeds), but the source never stores
the record, so the lookup immediately after the handler still fails and
the index is unchanged. -/
theorem C2_state_change_not_inserted :
    lookupA elExample.nodeIndex 55 = none
  ∧ logC2.topic0 = elExample.smoothingPoolStatusChangedTopic
  ∧ lookupA (handleNodeEvent envOk elExample logC2).nodeIndex 55 = none
  ∧ (handleNodeEvent envOk elExample logC2).nodeIndex = elExample.nodeIndex := by
  decide

/-! ### Claim C9 -/

/-- Claim C9: a `NodeRegistered` event stores a fresh zero-valued record
under the node address even when an entry with other contents is already
present, which the lookup afterwards then observes. -/
theorem C9_node_registered_overwrites (env : Env) (e : ExecutionLayer) (event : Log)
    (old : nodeInfo)
    (ht : event.topic0 = e.nodeRegisteredTopic)
    (_hold : lookupA e.nodeIndex (bytesToAddress event.topic1) = some old) :
    lookupA (handleNodeEvent env e event).nodeIndex (bytesToAddress event.topic1)
      = some { inSmoothingPool := false, feeDistributor := 0 } := by
  simp [handleNodeEvent, ht, lookupA_store_self]

/-- Node 55 already recorded as in the smoothing pool with distributor
999, about to be overwritten by a registration event. -/
def elC9 : ExecutionLayer :=
  { elExample with nodeIndex := [(55, { inSmoothingPool := true, feeDistributor := 999 })] }

/-- A `NodeRegistered` log for node 55 at block 112. -/
def logC9 : Log :=
  { address := 100, topic0 := nodeRegisteredTopicHash, topic1 := 55, topic2 := 0,
    data := 0, blockNumber := 112 }

theorem C9_witness :
    lookupA (handleNodeEvent envOk elC9 logC9).nodeIndex (bytesToAddress logC9.topic1)
      = some { inSmoothingPool := false, feeDistributor := 0 } :=
  C9_node_registered_overwrites envOk elC9 logC9
    { inSmoothingPool := true, feeDistributor := 999 } rfl (by decide)

/-! ### Claim C10 -/

/-- Claim C10: when fetching the minipool details fails during a
`MinipoolCreated` event, the minipool index is unchanged, `highestBlock`
is still set to the event block number, and the event block lies below the
start of any later back-fill (`highestBlock + 1`), so the event is never
re-delivered. -/
theorem C10_minipool_details_failure (env : Env) (e : ExecutionLayer) (event : Log)
    (haddr : event.address = e.rocketMinipoolManagerAddress)
    (hne : event.address ≠ e.rocketNodeManagerAddress)
    (ht : event.topic0 = e.minipoolLaunchedTopic)
    (hfail : env.getMinipoolDetails (bytesToAddress event.topic1) = .error ()) :
    (handleEvent env e event).minipoolIndex = e.minipoolIndex
  ∧ (handleEvent env e event).highestBlock = event.blockNumber
  ∧ event.blockNumber < (handleEvent env e event).highestBlock + 1 := by
  have h1 : handleMinipoolEvent env e event = e := by
    simp only [handleMinipoolEvent]
    rw [if_neg (by simp [ht]), hfail]
  have h2 : handleEvent env e event = { e with highestBlock := event.blockNumber } := by
    simp only [handleEvent]
    rw [if_neg hne, if_pos haddr, h1]
  rw [h2]
  exact ⟨rfl, rfl, Nat.lt_succ_self _⟩

/-- Adapter in which every minipool-details fetch fails. -/
def envC10 : Env := { envOk with getMinipoolDetails := fun _ => .error () }

/-- A `MinipoolCreated` log (minipool 66, node 44) at block 113 emitted by
the minipool manager at 200. -/
def logC10 : Log :=
  { address := 200, topic0 := minipoolLaunchedTopicHash, topic1 := 66, topic2 := 44,
    data := 0, blockNumber := 113 }

theorem C10_witness :
    (handleEvent envC10 elExample logC10).minipoolIndex = elExample.minipoolIndex
  ∧ (handleEvent envC10 elExample logC10).highestBlock = logC10.blockNumber
  ∧ logC10.blockNumber < (handleEvent envC10 elExample logC10).highestBlock + 1 :=
  C10_minipool_details_failure envC10 elExample logC10 rfl (by decide) rfl rfl

/-! ### Claim C3 -/

/-- A `NodeRegistered` event from block 105, delivered (from the buffered
event channel) after a header from block 110 has already advanced
`highestBlock`. -/
def logC3 : Log :=
  { address := 100, topic0 := nodeRegisteredTopicHash, topic1 := 60, topic2 := 0,
    data := 0, blockNumber := 105 }

/-- Claim C3 fails on the source: `handleEvent` assigns
`highestBlock = event.blockNumber` unconditionally, so processing a queued
event from block 105 while `highestBlock` is already 110 rewinds
`highestBlock` to 105. -/
theorem C3_counterexample :
    elExample.highestBlock = 110
  ∧ (handleEvent envOk elExample logC3).highestBlock = 105
  ∧ (handleEvent envOk elExample logC3).highestBlock < elExample.highestBlock := by
  decide

/-- Claim C3 amended: a new-header notification and a back-fill never
decrease `highestBlock`, while a handled event sets `highestBlock` to the
event block number unconditionally, so the event update is non-decreasing
exactly when the event block number is at least the current
`highestBlock`. -/
theorem C3_highest_block_updates (env : Env) (e e1 : ExecutionLayer) (n : Nat) (l : Log)
    (hbf : backfillEvents env e = .ok e1) (hl : e.highestBlock ≤ l.blockNumber) :
    e.highestBlock ≤ (handleNewHeader e n).highestBlock
  ∧ e.highestBlock ≤ e1.highestBlock
  ∧ (handleEvent env e l).highestBlock = l.blockNumber
  ∧ e.highestBlock ≤ (handleEvent env e l).highestBlock := by
  have hev : (handleEvent env e l).highestBlock = l.blockNumber := rfl
  refine ⟨?_, backfillEvents_mono env e e1 hbf, hev, ?_⟩
  · unfold handleNewHeader
    by_cases h : n ≤ e.highestBlock
    · rw [if_pos h]
    · rw [if_neg h]
      show e.highestBlock ≤ n
      omega
  · rw [hev]
    exact hl

/-- The state the `envOk` back-fill produces from `elExample`: no logs in
the gap, `highestBlock` forced to the head at 120. -/
def elC3bf : ExecutionLayer := { elExample with highestBlock := 120 }

/-- A `NodeRegistered` event from block 115, at or above the current
`highestBlock` of 110. -/
def logC3w : Log :=
  { address := 100, topic0 := nodeRegisteredTopicHash, topic1 := 61, topic2 := 0,
    data := 0, blockNumber := 115 }

theorem C3_witness :
    elExample.highestBlock ≤ (handleNewHeader elExample 118).highestBlock
  ∧ elExample.highestBlock ≤ elC3bf.highestBlock
  ∧ (handleEvent envOk elExample logC3w).highestBlock = logC3w.blockNumber
  ∧ elExample.highestBlock ≤ (handleEvent envOk elExample logC3w).highestBlock :=
  C3_highest_block_updates envOk elExample elC3bf 118 logC3w (by rfl) (by decide)

/-! ### Claim C6 -/

/-- Claim C6: with head `stop` and `start = highestBlock + 1`: when
`start > stop` the back-fill is a no-op returning success, independent of
the log-query adapter (no log query is consulted); when `start ≤ stop` it
fetches the logs for the two contracts and three topics over the
inclusive range, replays them through `handleEvent`, and sets
`highestBlock = max highestBlock stop`; and the block delta reported for
`start = stop` is 1. -/
theorem C6_backfill_contract (env : Env) (e : ExecutionLayer) :
    (∀ stop, env.headerByNumber = .ok stop → stop < e.highestBlock + 1 →
        backfillEvents env e = .ok e
      ∧ ∀ f, backfillEvents { env with filterLogs := f } e = .ok e)
  ∧ (∀ stop logs, env.headerByNumber = .ok stop → e.highestBlock + 1 ≤ stop →
      env.filterLogs
          [e.rocketMinipoolManagerAddress, e.rocketNodeManagerAddress]
          [e.nodeRegisteredTopic, e.smoothingPoolStatusChangedTopic, e.minipoolLaunchedTopic]
          (e.highestBlock + 1) stop = .ok logs →
        backfillEvents env e
          = .ok { logs.foldl (handleEvent env) e with highestBlock := max e.highestBlock stop })
  ∧ (∀ start, backfillDelta start start = 1) := by
  refine ⟨?_, ?_, ?_⟩
  · intro stop h1 h2
    exact ⟨backfillEvents_noop env e stop h1 h2,
      fun f => backfillEvents_noop { env with filterLogs := f } e stop h1 h2⟩
  · intro stop logs h1 h2 h3
    rw [backfillEvents_run env e stop logs h1 h2 h3,
      Nat.max_eq_right (by omega : e.highestBlock ≤ stop)]
  · intro start
    simp [backfillDelta]

/-- A `NodeRegistered` log for node 70 at block 115, inside the back-fill
gap. -/
def logC6 : Log :=
  { address := 100, topic0 := nodeRegisteredTopicHash, topic1 := 70, topic2 := 0,
    data := 0, blockNumber := 115 }

/-- Adapter whose historical-log query returns exactly `logC6`. -/
def envC6 : Env := { envOk with filterLogs := fun _ _ _ _ => .ok [logC6] }

/-- Adapter whose head, at block 90, is below `elExample.highestBlock`. -/
def envC6low : Env := { envOk with headerByNumber := .ok 90 }

theorem C6_witness :
    (backfillEvents envC6low elExample = .ok elExample
      ∧ ∀ f, backfillEvents { envC6low with filterLogs := f } elExample = .ok elExample)
  ∧ backfillEvents envC6 elExample
      = .ok { [logC6].foldl (handleEvent envC6) elExample with
              highestBlock := max elExample.highestBlock 120 }
  ∧ backfillDelta 7 7 = 1 :=
  ⟨(C6_backfill_contract envC6low elExample).1 90 rfl (by decide),
   (C6_backfill_contract envC6 elExample).2.1 120 [logC6] rfl (by decide) rfl,
   (C6_backfill_contract envC6 elExample).2.2 7⟩

/-! ### Claim C7 -/

/-- `handleNodeEvent` never reads `highestBlock` and carries it through
unchanged. -/
theorem handleNodeEvent_highestBlock (env : Env) (e : ExecutionLayer) (hb : Nat) (l : Log) :
    handleNodeEvent env { e with highestBlock := hb } l
      = { handleNodeEvent env e l with highestBlock := hb } := by
  simp only [handleNodeEvent]
  by_cases ht1 : l.topic0 = e.nodeRegisteredTopic
  · rw [if_pos ht1, if_pos ht1]
  · rw [if_neg ht1, if_neg ht1]
    by_cases ht2 : l.topic0 = e.smoothingPoolStatusChangedTopic
    · rw [if_pos ht2, if_pos ht2]
      cases lookupA e.nodeIndex (bytesToAddress l.topic1) <;> rfl
    · rw [if_neg ht2, if_neg ht2]

/-- `handleMinipoolEvent` never reads `highestBlock` and carries it
through unchanged. -/
theorem handleMinipoolEvent_highestBlock (env : Env) (e : ExecutionLayer) (hb : Nat) (l : Log) :
    handleMinipoolEvent env { e with highestBlock := hb } l
      = { handleMinipoolEvent env e l with highestBlock := hb } := by
  simp only [handleMinipoolEvent]
  by_cases ht3 : l.topic0 ≠ e.minipoolLaunchedTopic
  · rw [if_pos ht3, if_pos ht3]
  · rw [if_neg ht3, if_neg ht3]
    cases env.getMinipoolDetails (bytesToAddress l.topic1) <;> rfl

/-- The handlers never read `highestBlock`, and `handleEvent` overwrites
it, so handling an event from a state that differs only in `highestBlock`
gives the same result. -/
theorem handleEvent_highestBlock_irrel (env : Env) (e : ExecutionLayer) (hb : Nat) (l : Log) :
    handleEvent env { e with highestBlock := hb } l = handleEvent env e l := by
  simp only [handleEvent]
  by_cases h1 : l.address = e.rocketNodeManagerAddress
  · rw [if_pos h1, if_pos h1, handleNodeEvent_highestBlock]
  · rw [if_neg h1, if_neg h1]
    by_cases h2 : l.address = e.rocketMinipoolManagerAddress
    · rw [if_pos h2, if_pos h2, handleMinipoolEvent_highestBlock]
    · rw [if_neg h2, if_neg h2]

theorem foldl_handleEvent_highestBlock_irrel (env : Env) (suf : List Log)
    (e : ExecutionLayer) (hb : Nat) :
    ((suf.foldl (handleEvent env) { e with highestBlock := hb }).minipoolIndex
      = (suf.foldl (handleEvent env) e).minipoolIndex)
  ∧ ((suf.foldl (handleEvent env) { e with highestBlock := hb }).nodeIndex
      = (suf.foldl (handleEvent env) e).nodeIndex) := by
  cases suf with
  | nil => exact ⟨rfl, rfl⟩
  | cons l rest =>
    simp [List.foldl_cons, handleEvent_highestBlock_irrel]

/-- Claim C7: replaying a prefix of the event stream through the back-fill
path (handler replay followed by forcing `highestBlock` to the stop block)
and then the suffix through the live path gives the same final minipool
and node indices as the live path over the whole sequence. -/
theorem C7_backfill_then_live (env : Env) (e e1 : ExecutionLayer) (pre suf : List Log)
    (stop : Nat)
    (h1 : env.headerByNumber = .ok stop) (h2 : e.highestBlock + 1 ≤ stop)
    (h3 : env.filterLogs
        [e.rocketMinipoolManagerAddress, e.rocketNodeManagerAddress]
        [e.nodeRegisteredTopic, e.smoothingPoolStatusChangedTopic, e.minipoolLaunchedTopic]
        (e.highestBlock + 1) stop = .ok pre)
    (hbf : backfillEvents env e = .ok e1) :
    ((suf.foldl (handleEvent env) e1).minipoolIndex
      = ((pre ++ suf).foldl (handleEvent env) e).minipoolIndex)
  ∧ ((suf.foldl (handleEvent env) e1).nodeIndex
      = ((pre ++ suf).foldl (handleEvent env) e).nodeIndex) := by
  have he1 : e1 = { pre.foldl (handleEvent env) e with highestBlock := stop } := by
    rw [backfillEvents_run env e stop pre h1 h2 h3] at hbf
    injection hbf with h
    exact h.symm
  subst he1
  rw [List.foldl_append]
  exact foldl_handleEvent_highestBlock_irrel env suf (pre.foldl (handleEvent env) e) stop

/-- A `NodeRegistered` log for node 60 at block 115, the back-fill prefix. -/
def logC7a : Log :=
  { address := 100, topic0 := nodeRegisteredTopicHash, topic1 := 60, topic2 := 0,
    data := 0, blockNumber := 115 }

/-- A `NodeRegistered` log for node 61 at block 121, the live suffix. -/
def logC7b : Log :=
  { address := 100, topic0 := nodeRegisteredTopicHash, topic1 := 61, topic2 := 0,
    data := 0, blockNumber := 121 }

/-- Adapter whose historical-log query returns exactly `logC7a`. -/
def envC7 : Env := { envOk with filterLogs := fun _ _ _ _ => .ok [logC7a] }

/-- The state the `envC7` back-fill produces from `elExample`: node 60
registered, `highestBlock` forced to the head at 120. -/
def elC7bf : ExecutionLayer :=
  { elExample with
    nodeIndex := [(60, { inSmoothingPool := false, feeDistributor := 0 })]
    highestBlock := 120 }

theorem C7_witness :
    (([logC7b].foldl (handleEvent envC7) elC7bf).minipoolIndex
      = (([logC7a] ++ [logC7b]).foldl (handleEvent envC7) elExample).minipoolIndex)
  ∧ (([logC7b].foldl (handleEvent envC7) elC7bf).nodeIndex
      = (([logC7a] ++ [logC7b]).foldl (handleEvent envC7) elExample).nodeIndex) :=
  C7_backfill_then_live envC7 elExample elC7bf [logC7a] [logC7b] 120
    rfl (by decide) rfl (by rfl)

/-! ### Claim C5 -/

/-- Adapter family for which log re-subscription always succeeds and
header re-subscription always fails. -/
def envAtHeadFail : Nat → Env := fun _ => { envOk with subscribeNewHead := .error () }

/-- Claim C5 fails on the source: with log re-subscription succeeding and
header re-subscription failing, the retry loop `break`s out after the
first attempt and reaches the final panic, instead of counting the
attempt as failed and retrying up to 10 times. -/
theorem C5_counterexample :
    reconnectFrom envAtHeadFail elExample 0 reconnectRetries
      = { outcome := .panicNoConnection, attempts := 1, sleeps := [] }
  ∧ (reconnectFrom envAtHeadFail elExample 0 reconnectRetries).attempts ≠ reconnectRetries := by
  exact ⟨rfl, by decide⟩

/-- Claim C5 amended: when log re-subscription succeeds and the following
header re-subscription fails, the retry loop terminates right there —
after a single attempt, with no sleeps and none of the remaining attempts
used — and the procedure falls through to the connection panic. -/
theorem C5_header_resub_failure_breaks (envAt : Nat → Env) (e : ExecutionLayer) (i r : Nat)
    (h1 : (envAt i).subscribeFilterLogs = .ok ())
    (h2 : (envAt i).subscribeNewHead = .error ()) :
    reconnectFrom envAt e i (r + 1)
      = { outcome := .panicNoConnection, attempts := 1, sleeps := [] } := by
  unfold reconnectFrom
  rw [h1, h2]

theorem C5_witness :
    reconnectFrom envAtHeadFail elExample 2 5
      = { outcome := .panicNoConnection, attempts := 1, sleeps := [] } :=
  C5_header_resub_failure_breaks envAtHeadFail elExample 2 4 rfl rfl

/-! ### Claim C8 -/

theorem reconnectFrom_attempts_le (envAt : Nat → Env) (e : ExecutionLayer) :
    ∀ r i, (reconnectFrom envAt e i r).attempts ≤ r := by
  intro r
  induction r with
  | zero => intro i; exact Nat.le_refl 0
  | succ r ih =>
    intro i
    simp only [reconnectFrom]
    cases h1 : (envAt i).subscribeFilterLogs with
    | error u =>
      show (reconnectFrom envAt e (i + 1) r).attempts + 1 ≤ r + 1
      exact Nat.succ_le_succ (ih (i + 1))
    | ok u =>
      cases h2 : (envAt i).subscribeNewHead with
      | error v => exact Nat.succ_le_succ (Nat.zero_le r)
      | ok v =>
        cases h3 : backfillEvents (envAt i) e with
        | error w => exact Nat.succ_le_succ (Nat.zero_le r)
        | ok st => exact Nat.succ_le_succ (Nat.zero_le r)

/-- The sleep sequence of a loop run started at index `i` is the
arithmetic sequence `5 * i, 5 * (i + 1), ...`. -/
theorem range_map_mul_shift (r i : Nat) :
    (List.range (r + 1)).map (fun j => 5 * (i + j))
      = (5 * i) :: (List.range r).map (fun j => 5 * ((i + 1) + j)) := by
  rw [List.range_succ_eq_map, List.map_cons, List.map_map]
  have hfun : ((fun j => 5 * (i + j)) ∘ Nat.succ) = (fun j => 5 * ((i + 1) + j)) := by
    funext j
    simp only [Function.comp_apply]
    omega
  rw [hfun]
  norm_num

theorem reconnectFrom_sleeps_arith (envAt : Nat → Env) (e : ExecutionLayer) :
    ∀ r i, ∃ k, (reconnectFrom envAt e i r).sleeps
      = (List.range k).map (fun j => 5 * (i + j)) := by
  intro r
  induction r with
  | zero => intro i; exact ⟨0, rfl⟩
  | succ r ih =>
    intro i
    simp only [reconnectFrom]
    cases h1 : (envAt i).subscribeFilterLogs with
    | error u =>
      obtain ⟨k, hk⟩ := ih (i + 1)
      refine ⟨k + 1, ?_⟩
      show (5 * i) :: (reconnectFrom envAt e (i + 1) r).sleeps
          = (List.range (k + 1)).map (fun j => 5 * (i + j))
      rw [hk, range_map_mul_shift]
    | ok u =>
      cases h2 : (envAt i).subscribeNewHead with
      | error v => exact ⟨0, rfl⟩
      | ok v =>
        cases h3 : backfillEvents (envAt i) e with
        | error w => exact ⟨0, rfl⟩
        | ok st => exact ⟨0, rfl⟩

theorem reconnectFrom_all_fail (envAt : Nat → Env) (e : ExecutionLayer)
    (h : ∀ i, (envAt i).subscribeFilterLogs = .error ()) :
    ∀ r i, reconnectFrom envAt e i r
      = { outcome := .panicNoConnection, attempts := r,
          sleeps := (List.range r).map (fun j => 5 * (i + j)) } := by
  intro r
  induction r with
  | zero => intro i; rfl
  | succ r ih =>
    intro i
    simp only [reconnectFrom, h i]
    rw [ih (i + 1), range_map_mul_shift]

theorem reconnectFrom_backfill_fail (envAt : Nat → Env) (e : ExecutionLayer) (i r : Nat)
    (h1 : (envAt i).subscribeFilterLogs = .ok ())
    (h2 : (envAt i).subscribeNewHead = .ok ())
    (h3 : backfillEvents (envAt i) e = .error ()) :
    reconnectFrom envAt e i (r + 1)
      = { outcome := .panicBackfill, attempts := 1, sleeps := [] } := by
  unfold reconnectFrom
  rw [h1, h2, h3]

/-- A prefix of `k` failed log re-subscriptions only accumulates sleeps
and attempts: the loop outcome is that of the run restarted at attempt
`i + k` with the remaining budget. -/
theorem reconnectFrom_outcome_skip (envAt : Nat → Env) (e : ExecutionLayer) :
    ∀ k r i, k ≤ r →
      (∀ j, j < k → (envAt (i + j)).subscribeFilterLogs = .error ()) →
      (reconnectFrom envAt e i r).outcome
        = (reconnectFrom envAt e (i + k) (r - k)).outcome := by
  intro k
  induction k with
  | zero =>
    intro r i _ _
    simp
  | succ k ih =>
    intro r i hkr hfail
    cases r with
    | zero => omega
    | succ r =>
      have h0 : (envAt i).subscribeFilterLogs = .error () := by
        have h1 := hfail 0 (Nat.succ_pos k)
        simpa using h1
      have hside : ∀ j, j < k → (envAt ((i + 1) + j)).subscribeFilterLogs = .error () := by
        intro j hj
        have h2 := hfail (j + 1) (by omega)
        have e3 : i + (j + 1) = (i + 1) + j := by omega
        rw [e3] at h2
        exact h2
      have hrec := ih r (i + 1) (by omega) hside
      simp only [reconnectFrom, h0]
      rw [hrec]
      have e1 : (i + 1) + k = i + (k + 1) := by omega
      have e2 : r - k = r + 1 - (k + 1) := by omega
      rw [e1, e2]

/-- Claim C8 amended: a `handleSubscriptionError` invocation makes at most
`reconnectRetries = 10` log re-subscription attempts; the first attempt is
immediate and attempt `i` (counting from 1) sleeps `5 * (i - 1)` seconds
before the next attempt, so the sleeps of a run form the sequence
`0, 5, 10, ...`; when every attempt fails the loop uses all 10 attempts
and ends in the connection panic; and when the reconnect succeeds at any
of the 10 attempts (all earlier log re-subscriptions having failed, the
only way the loop reaches that attempt) and the post-reconnect back-fill
then fails, the procedure ends in the back-fill panic. -/
theorem C8_reconnect_loop (envAt : Nat → Env) (e : ExecutionLayer) :
    (reconnectFrom envAt e 0 reconnectRetries).attempts ≤ reconnectRetries
  ∧ (∃ k, (reconnectFrom envAt e 0 reconnectRetries).sleeps
      = (List.range k).map (fun j => 5 * j))
  ∧ ((∀ i, (envAt i).subscribeFilterLogs = .error ()) →
      reconnectFrom envAt e 0 reconnectRetries
        = { outcome := .panicNoConnection, attempts := reconnectRetries,
            sleeps := (List.range reconnectRetries).map (fun j => 5 * j) })
  ∧ (∀ i, i < reconnectRetries →
      (∀ j, j < i → (envAt j).subscribeFilterLogs = .error ()) →
      (envAt i).subscribeFilterLogs = .ok () → (envAt i).subscribeNewHead = .ok () →
      backfillEvents (envAt i) e = .error () →
      (reconnectFrom envAt e 0 reconnectRetries).outcome = .panicBackfill) := by
  refine ⟨reconnectFrom_attempts_le envAt e reconnectRetries 0, ?_, ?_, ?_⟩
  · obtain ⟨k, hk⟩ := reconnectFrom_sleeps_arith envAt e reconnectRetries 0
    refine ⟨k, ?_⟩
    simpa using hk
  · intro h
    have hall := reconnectFrom_all_fail envAt e h reconnectRetries 0
    simpa using hall
  · intro i hi hprev h1 h2 h3
    have h10 : reconnectRetries = 10 := rfl
    have hside : ∀ j, j < i → (envAt (0 + j)).subscribeFilterLogs = .error () := by
      intro j hj
      simpa using hprev j hj
    have hskip := reconnectFrom_outcome_skip envAt e i reconnectRetries 0 (by omega) hside
    obtain ⟨m, hm⟩ : ∃ m, reconnectRetries - i = m + 1 :=
      ⟨reconnectRetries - i - 1, by omega⟩
    rw [hskip, hm, Nat.zero_add,
      reconnectFrom_backfill_fail envAt e i m h1 h2 h3]

/-- Adapter family for which log re-subscription always fails. -/
def envAtLogFail : Nat → Env := fun _ => { envOk with subscribeFilterLogs := .error () }

/-- Claim C8 fails on the source as to the delay schedule: with every log
re-subscription failing, the recorded sleeps are 0, 5, ..., 45 seconds —
attempt 1 sleeps 0 seconds before attempt 2, not the 5 seconds the claim
(`attempt i waits 5 * i`) predicts. -/
theorem C8_counterexample :
    (reconnectFrom envAtLogFail elExample 0 reconnectRetries).sleeps
      = [0, 5, 10, 15, 20, 25, 30, 35, 40, 45]
  ∧ (reconnectFrom envAtLogFail elExample 0 reconnectRetries).sleeps.head? = some 0
  ∧ ¬ (reconnectFrom envAtLogFail elExample 0 reconnectRetries).sleeps.head? = some 5 := by
  exact ⟨rfl, rfl, by decide⟩

/-- Adapter family for which the reconnect succeeds at once but the
post-reconnect back-fill fails (the head query errors). -/
def envAtBackfillFail : Nat → Env := fun _ => { envOk with headerByNumber := .error () }

/-- Adapter family for which attempt 1 fails to re-subscribe to logs, the
reconnect succeeds at attempt 2, and the back-fill at attempt 2 fails. -/
def envAtSecondTry : Nat → Env := fun i =>
  if i = 0 then { envOk with subscribeFilterLogs := .error () }
  else { envOk with headerByNumber := .error () }

theorem C8_witness :
    reconnectFrom envAtLogFail elExample 0 reconnectRetries
      = { outcome := .panicNoConnection, attempts := reconnectRetries,
          sleeps := (List.range reconnectRetries).map (fun j => 5 * j) }
  ∧ (reconnectFrom envAtBackfillFail elExample 0 reconnectRetries).outcome = .panicBackfill
  ∧ (reconnectFrom envAtSecondTry elExample 0 reconnectRetries).outcome = .panicBackfill :=
  ⟨(C8_reconnect_loop envAtLogFail elExample).2.2.1 (fun _ => rfl),
   (C8_reconnect_loop envAtBackfillFail elExample).2.2.2 0 (by decide)
     (fun j hj => absurd hj (Nat.not_lt_zero j)) rfl rfl rfl,
   (C8_reconnect_loop envAtSecondTry elExample).2.2.2 1 (by decide)
     (fun j hj => by
       have hj0 : j = 0 := by omega
       subst hj0
       rfl) rfl rfl rfl⟩

/-! ### Claim C4 -/

/-- Failing input for claim C4: the whole snapshot succeeds (one node,
address 42) but establishing the log subscription fails. -/
def envC4 : Env := { envOk with getNodes := .ok [42], subscribeFilterLogs := .error () }

/-- The snapshot state `Init` builds from `envC4` before calling
`ecEventsConnect`: node 42 solo with distributor 1042, no minipools. -/
def elC4snap : ExecutionLayer :=
  { emptyEL with
    rocketNodeManagerAddress := 100
    rocketMinipoolManagerAddress := 200
    smoothingPoolAddress := 300
    nodeIndex := [(42, { inSmoothingPool := false, feeDistributor := 1042 })] }

/-- The state `Init` returns for `envC4`: topics and the pinned
`highestBlock` are set, the indices are populated, but no subscription was
established and no back-fill ran. -/
def elC4 : ExecutionLayer :=
  { elC4snap with
    nodeRegisteredTopic := nodeRegisteredTopicHash
    smoothingPoolStatusChangedTopic := smoothingPoolStatusChangedTopicHash
    minipoolLaunchedTopic := minipoolLaunchedTopicHash
    highestBlock := 120 }

/-- Claim C4 fails on the source: although the log-subscription call of
`ecEventsConnect` fails (second conjunct), `Init` discards that failure
and returns success with the populated snapshot state (third conjunct), so
the caller observes a successfully started oracle whose event pump is
not running. -/
theorem C4_init_ignores_connect_failure :
    envC4.subscribeFilterLogs = .error ()
  ∧ ecEventsConnect envC4 elC4snap 120 = (elC4, false)
  ∧ Init envC4 = .ok elC4 := by
  exact ⟨rfl, rfl, rfl⟩

end RescueProxy
